import Mathlib

/-!
Verification of the multi-website scraper core
(`tempCodeRunnerFile.py`, class `MultiWebsiteScraper`).

The Python code is embedded shallowly:

* A Python dict used as a record (`item_data`) becomes an association
  list `List (String × PyVal)` built by `dictSet`, which mirrors Python
  dict assignment semantics (updating an existing key keeps its
  position, a fresh key is appended).
* BeautifulSoup is out of scope (an external selector-matching
  capability): an `Element` is abstracted by its `select` function
  returning the stripped texts of the matched sub-elements in document
  order, with `none` modelling an exception raised during selection or
  text extraction; a `Soup` (parsed page) by its container selection
  and its whole-page text.
* The network is abstracted by an oracle: `get_page_content`'s retry
  loop takes a predicate saying which attempt indices fail with a
  `requests` exception, and returns the number of attempts performed,
  the backoff waits slept (in seconds), and whether a parsed page was
  obtained; at the site level `Env.fetch` gives the outcome of
  `get_page_content` per URL and `Env.urljoin` abstracts
  `urllib.parse.urljoin`.
* The thread pool in `scrape_all_websites` is embedded by its fan-in:
  each submitted site task either returns a record list or raises,
  so the scheduler consumes a `List (String × Except String (List Record))`
  and builds the result mapping exactly as the `as_completed` loop does.
* `datetime.now(timezone.utc).isoformat()` is abstracted by a timestamp
  string parameter.
-/

/-- A Python value as stored in an `item_data` dict entry:
a text scalar, an integer, a list of texts, or `None`. -/
inductive PyVal where
  | vStr (s : String)
  | vNat (n : Nat)
  | vList (ls : List String)
  | vNone
deriving DecidableEq, Repr

/-- One extracted item (`item_data` in `extract_data_from_soup`):
a Python dict from field name to value, in insertion order. -/
def Record := List (String × PyVal)
deriving DecidableEq, Repr

/-- Python dict assignment `d[k] = v`: replace the value in place if the
key exists (keeping its position), otherwise append the new pair. -/
def dictSet : Record → String → PyVal → Record
  | [], k, v => [(k, v)]
  | (k1, v1) :: rest, k, v =>
      if k1 = k then (k, v) :: rest else (k1, v1) :: dictSet rest k v

/-- Python dict lookup `d.get(k)` on a `Record`. -/
def lookupKey : Record → String → Option PyVal
  | [], _ => none
  | (k1, v1) :: rest, k => if k1 = k then some v1 else lookupKey rest k

/-- A DOM element inside a matched container, abstracted by its
`select`: for a selector string, the stripped texts of the matched
sub-elements in document order; `none` models an exception raised by
`container.select` / `get_text` for that selector. -/
structure Element where
  select : String → Option (List String)

/-- A parsed page (`BeautifulSoup` object), abstracted by container
selection (document order) and by the whole-page stripped text. -/
structure Soup where
  selectContainers : String → List Element
  pageText : String

/-- Python `s.endswith(tail)`, computed on the character list (the
library `String.endsWith` does not reduce in the kernel). -/
def strEndsWith (s tail : String) : Bool :=
  s.data.length ≥ tail.data.length
    && s.data.drop (s.data.length - tail.data.length) == tail.data

/-- The body of the per-field `try` in `extract_data_from_soup`
(lines 189-203): zero matches or an exception store `None`; the field
`tags` collects all matched texts; any other field takes the first. -/
def extractField (container : Element) (field sel : String) : PyVal :=
  match container.select sel with
  | none => PyVal.vNone
  | some [] => PyVal.vNone
  | some (t :: ts) =>
      if field = "tags" then PyVal.vList (t :: ts) else PyVal.vStr t

/-- Python `a or b` on `dict.get` results, where `None` and the empty
string are falsy. -/
def pyOrS (a b : Option String) : Option String :=
  match a with
  | some s => if s.isEmpty then b else some s
  | none => b

/-- Python truthiness of an optional selector string. -/
def pyTruthyS : Option String → Bool
  | some s => !s.isEmpty
  | none => false

/-- `selectors.get k` on the selector map (a Python dict, embedded as
an association list in insertion order). -/
def lookupS : List (String × String) → String → Option String
  | [], _ => none
  | (k1, v1) :: rest, k => if k1 = k then some v1 else lookupS rest k

/-- Line 171: `selectors.get('quote_container') or
selectors.get('book_container') or selectors.get('data_container')`. -/
def container_selector (selectors : List (String × String)) : Option String :=
  pyOrS (lookupS selectors "quote_container")
    (pyOrS (lookupS selectors "book_container")
      (lookupS selectors "data_container"))

/-- The container selector as used by the `if container_selector:`
truthiness test on line 173: `some` exactly when the chained value is
truthy (non-`None` and non-empty). -/
def effectiveContainer (selectors : List (String × String)) : Option String :=
  match container_selector selectors with
  | some s => if s.isEmpty then none else some s
  | none => none

/-- Building one container's `item_data` (lines 178-203): provenance
keys first, then one dict assignment per non-`_container` selector
field. `i` is the 0-based `enumerate` index, `ts` the capture
timestamp. -/
def buildItem (selectors : List (String × String)) (websiteName ts : String)
    (i : Nat) (container : Element) : Record :=
  (selectors.filter (fun fs => !strEndsWith fs.1 "_container")).foldl
    (fun d fs => dictSet d fs.1 (extractField container fs.1 fs.2))
    [("website", PyVal.vStr websiteName), ("item_id", PyVal.vNat (i + 1)),
     ("scraped_at", PyVal.vStr ts)]

/-- The degraded whole-page record built when no container selector is
present (lines 209-213): site name, first 1000 characters of the page
text, timestamp — and nothing else. -/
def fallbackItem (soup : Soup) (websiteName ts : String) : Record :=
  [("website", PyVal.vStr websiteName),
   ("content", PyVal.vStr (String.mk (soup.pageText.data.take 1000))),
   ("scraped_at", PyVal.vStr ts)]

/-- `extract_data_from_soup` (lines 163-219): with a truthy container
selector, one record per matched container in document order; otherwise
the single degraded whole-page record. -/
def extract_data_from_soup (soup : Soup) (selectors : List (String × String))
    (websiteName ts : String) : List Record :=
  match effectiveContainer selectors with
  | some csel =>
      (soup.selectContainers csel).enum.map
        (fun ic => buildItem selectors websiteName ts ic.1 ic.2)
  | none => [fallbackItem soup websiteName ts]

/-- The outcome of running the `for attempt in range(retries + 1)` loop
of `get_page_content` (lines 138-161): how many requests were issued,
the backoff waits slept (in seconds, in order), and whether a page was
obtained. -/
structure FetchTrace where
  attempts : Nat
  waits : List Nat
  ok : Bool
deriving DecidableEq, Repr

/-- The retry loop of `get_page_content` from iteration `attempt`
onwards, with `fuel` remaining loop iterations (`fuel` is
`retries + 1 - attempt` at the top-level call). `fails i = true` means
the request of attempt index `i` raises a `requests` exception. On a
failed attempt with `attempt < retries` the loop sleeps
`(attempt + 1) * 2` seconds and retries; on the last allowed attempt it
returns `None` (here `ok = false`) without sleeping. -/
def fetchGo (fails : Nat → Bool) (retries : Nat) : Nat → Nat → FetchTrace
  | _, 0 => ⟨0, [], false⟩
  | attempt, fuel + 1 =>
      if fails attempt then
        if attempt < retries then
          let rest := fetchGo fails retries (attempt + 1) fuel
          ⟨rest.attempts + 1, (attempt + 1) * 2 :: rest.waits, rest.ok⟩
        else ⟨1, [], false⟩
      else ⟨1, [], true⟩

/-- `get_page_content url retries` (lines 129-161), abstracted over the
per-attempt failure oracle: runs at most `retries + 1` request
attempts. -/
def get_page_content (fails : Nat → Bool) (retries : Nat) : FetchTrace :=
  fetchGo fails retries 0 (retries + 1)

/-- The effective per-site configuration consumed by `scrape_website`
(lines 225-234): the `enabled` flag (`website_config.get('enabled',
True)`), the base URL, the ordered page list and the selector map. -/
structure WebsiteConfig where
  enabled : Bool
  base_url : String
  pages : List String
  selectors : List (String × String)

/-- The external world seen by one site task: the outcome of
`get_page_content` for each URL (`none` when all attempts failed), and
`urllib.parse.urljoin`. -/
structure Env where
  fetch : String → Option Soup
  urljoin : String → String → String

/-- What one site task produced: its accumulated records (`all_data`)
and the URLs for which a fetch was issued, in order. -/
structure SiteResult where
  records : List Record
  fetched : List String
deriving DecidableEq, Repr

/-- One iteration of the page loop of `scrape_website` (lines 238-255):
join the URL, fetch, and on success extend `all_data` with the page's
extracted records; on fetch failure continue with the next page. -/
def scrapePageStep (env : Env) (websiteName ts : String)
    (cfg : WebsiteConfig) (acc : SiteResult) (page : String) : SiteResult :=
  let full_url := env.urljoin cfg.base_url page
  match env.fetch full_url with
  | some soup =>
      ⟨acc.records ++ extract_data_from_soup soup cfg.selectors websiteName ts,
       acc.fetched ++ [full_url]⟩
  | none => ⟨acc.records, acc.fetched ++ [full_url]⟩

/-- `scrape_website` (lines 221-258): skip immediately when disabled,
otherwise iterate the pages in configured order. -/
def scrape_website (env : Env) (websiteName ts : String)
    (cfg : WebsiteConfig) : SiteResult :=
  if !cfg.enabled then ⟨[], []⟩
  else cfg.pages.foldl (scrapePageStep env websiteName ts cfg) ⟨[], []⟩

/-- The fan-in loop of `scrape_all_websites` (lines 280-289): each
site task either returned a record list (`Except.ok`) or raised
(`Except.error`); a raising task is caught at the scheduler boundary
and its site is recorded with an empty list. -/
def scrape_all_websites
    (tasks : List (String × Except String (List Record))) :
    List (String × List Record) :=
  tasks.map (fun nr =>
    match nr.2 with
    | Except.ok data => (nr.1, data)
    | Except.error _ => (nr.1, []))

/-- One per-site entry of the report's `websites` mapping. -/
structure SiteReportEntry where
  name : String
  items_scraped : Nat
  status : String
deriving DecidableEq, Repr

/-- The summary report of `generate_report` (lines 358-376). -/
structure CrawlReport where
  timestamp : String
  user : String
  total_websites : Nat
  websites : List SiteReportEntry
  total_items : Nat
deriving DecidableEq, Repr

/-- One iteration of the report loop (lines 368-374): append the
site's entry (`success` when its record count is positive, else
`no_data`) and add its count to `total_items`. -/
def reportStep (rep : CrawlReport) (nd : String × List Record) : CrawlReport :=
  { rep with
    websites := rep.websites ++
      [⟨nd.1, nd.2.length,
        if nd.2.length > 0 then "success" else "no_data"⟩],
    total_items := rep.total_items + nd.2.length }

/-- `generate_report` (lines 358-376) over the scraped-data mapping:
the header record, then one `reportStep` per site. -/
def generate_report (ts : String)
    (scraped : List (String × List Record)) : CrawlReport :=
  scraped.foldl reportStep ⟨ts, "CrypticLuminary", scraped.length, [], 0⟩

example :
    extract_data_from_soup ⟨fun _ => [⟨fun _ => some ["a", "b"]⟩], "pg"⟩
      [("data_container", "c"), ("tags", "t")] "w" "ts"
    = [[("website", PyVal.vStr "w"), ("item_id", PyVal.vNat 1),
        ("scraped_at", PyVal.vStr "ts"), ("tags", PyVal.vList ["a", "b"])]] := by
  decide

example :
    extract_data_from_soup ⟨fun _ => [], "pg"⟩ [("title", "t")] "w" "ts"
    = [[("website", PyVal.vStr "w"), ("content", PyVal.vStr "pg"),
        ("scraped_at", PyVal.vStr "ts")]] := by
  decide

example : get_page_content (fun _ => true) 2 = ⟨3, [2, 4], false⟩ := by decide

example : get_page_content (fun i => i < 1) 2 = ⟨2, [2], true⟩ := by decide

/-! ### Dictionary lemmas -/

theorem lookupKey_dictSet_self (d : Record) (k : String) (v : PyVal) :
    lookupKey (dictSet d k v) k = some v := by
  induction d with
  | nil => simp [dictSet, lookupKey]
  | cons p rest ih =>
      obtain ⟨k1, v1⟩ := p
      by_cases h : k1 = k
      · simp [dictSet, lookupKey, h]
      · simp [dictSet, lookupKey, h, ih]

theorem lookupKey_dictSet_ne (d : Record) (k k1 : String) (v : PyVal)
    (h : k ≠ k1) : lookupKey (dictSet d k v) k1 = lookupKey d k1 := by
  induction d with
  | nil => simp [dictSet, lookupKey, h]
  | cons p rest ih =>
      obtain ⟨k2, v2⟩ := p
      have h1 : k1 ≠ k := fun e => h e.symm
      by_cases h2 : k2 = k
      · subst h2
        simp [dictSet, lookupKey, h, h1]
      · by_cases h3 : k2 = k1 <;> simp [dictSet, lookupKey, h2, h3, h1, ih]

theorem lookupKey_dictSet_isSome (d : Record) (k k1 : String) (v : PyVal)
    (h : lookupKey d k1 ≠ none) : lookupKey (dictSet d k v) k1 ≠ none := by
  by_cases hk : k = k1
  · subst hk
    simp [lookupKey_dictSet_self]
  · rw [lookupKey_dictSet_ne d k k1 v hk]
    exact h

/-- Folding dict assignments whose keys all differ from `f` leaves the
value at `f` unchanged. -/
theorem lookupKey_foldl_dictSet_of_notmem (val : String × String → PyVal)
    (l : List (String × String)) (init : Record) (f : String)
    (h : ∀ p ∈ l, p.1 ≠ f) :
    lookupKey (l.foldl (fun d p => dictSet d p.1 (val p)) init) f
      = lookupKey init f := by
  induction l generalizing init with
  | nil => rfl
  | cons p rest ih =>
      have hp : p.1 ≠ f := h p (List.mem_cons_self p rest)
      have hrest : ∀ q ∈ rest, q.1 ≠ f := fun q hq => h q (List.mem_cons_of_mem p hq)
      simp only [List.foldl_cons]
      rw [ih (dictSet init p.1 (val p)) hrest,
        lookupKey_dictSet_ne init p.1 f (val p) hp]

/-- With pairwise-distinct keys, folding dict assignments stores at `f`
exactly the value computed for its entry. -/
theorem lookupKey_foldl_dictSet_of_mem (val : String × String → PyVal)
    (l : List (String × String)) (init : Record) (f sel : String)
    (hmem : (f, sel) ∈ l) (hnodup : (l.map Prod.fst).Nodup) :
    lookupKey (l.foldl (fun d p => dictSet d p.1 (val p)) init) f
      = some (val (f, sel)) := by
  induction l generalizing init with
  | nil => cases hmem
  | cons p rest ih =>
      simp only [List.map_cons, List.nodup_cons] at hnodup
      rcases List.mem_cons.mp hmem with hhead | htail
      · subst hhead
        simp only [List.foldl_cons]
        have hrest : ∀ q ∈ rest, q.1 ≠ f := by
          intro q hq hq1
          apply hnodup.1
          have hmem2 : q.1 ∈ rest.map Prod.fst := List.mem_map_of_mem Prod.fst hq
          rwa [hq1] at hmem2
        rw [lookupKey_foldl_dictSet_of_notmem val rest _ f hrest,
          lookupKey_dictSet_self]
      · simp only [List.foldl_cons]
        exact ih _ htail hnodup.2

/-- Folding dict assignments never deletes a key present in the
initial dict. -/
theorem lookupKey_foldl_dictSet_isSome (val : String × String → PyVal)
    (l : List (String × String)) (init : Record) (f : String)
    (h : lookupKey init f ≠ none) :
    lookupKey (l.foldl (fun d p => dictSet d p.1 (val p)) init) f ≠ none := by
  induction l generalizing init with
  | nil => exact h
  | cons p rest ih =>
      simp only [List.foldl_cons]
      exact ih _ (lookupKey_dictSet_isSome init p.1 f (val p) h)

/-- Keys of the filtered selector list are pairwise distinct whenever
the selector-map keys are. -/
theorem nodup_filter_keys (selectors : List (String × String))
    (hnodup : (selectors.map Prod.fst).Nodup) (q : String × String → Bool) :
    ((selectors.filter q).map Prod.fst).Nodup :=
  hnodup.sublist ((List.filter_sublist selectors).map Prod.fst)

/-! ### Lemmas about `buildItem` -/

/-- The value stored for a non-container selector field with
pairwise-distinct selector keys. -/
theorem buildItem_lookup_field (selectors : List (String × String))
    (website ts : String) (i : Nat) (container : Element) (f sel : String)
    (hmem : (f, sel) ∈ selectors) (hnc : strEndsWith f "_container" = false)
    (hnodup : (selectors.map Prod.fst).Nodup) :
    lookupKey (buildItem selectors website ts i container) f
      = some (extractField container f sel) := by
  unfold buildItem
  exact lookupKey_foldl_dictSet_of_mem
    (fun p => extractField container p.1 p.2) _ _ f sel
    (List.mem_filter.mpr ⟨hmem, by simp [hnc]⟩)
    (nodup_filter_keys selectors hnodup _)

/-- Container-named fields are skipped: they never appear in the built
item. -/
theorem buildItem_lookup_container_name (selectors : List (String × String))
    (website ts : String) (i : Nat) (container : Element) (f : String)
    (hc : strEndsWith f "_container" = true) :
    lookupKey (buildItem selectors website ts i container) f = none := by
  unfold buildItem
  rw [lookupKey_foldl_dictSet_of_notmem]
  · have hw : f ≠ "website" := fun e => absurd (e ▸ hc) (by decide)
    have hi : f ≠ "item_id" := fun e => absurd (e ▸ hc) (by decide)
    have hs : f ≠ "scraped_at" := fun e => absurd (e ▸ hc) (by decide)
    simp [lookupKey, Ne.symm hw, Ne.symm hi, Ne.symm hs]
  · intro p hp hpf
    have hq := (List.mem_filter.mp hp).2
    rw [hpf, hc] at hq
    exact absurd hq (by decide)

/-- When no selector field is named `item_id`, the built item stores
the 1-based enumerate index there. -/
theorem buildItem_lookup_item_id (selectors : List (String × String))
    (website ts : String) (i : Nat) (container : Element)
    (h : ∀ p ∈ selectors, p.1 ≠ "item_id") :
    lookupKey (buildItem selectors website ts i container) "item_id"
      = some (PyVal.vNat (i + 1)) := by
  unfold buildItem
  rw [lookupKey_foldl_dictSet_of_notmem]
  · simp [lookupKey, show ("website" : String) ≠ "item_id" by decide]
  · intro p hp
    exact h p (List.mem_filter.mp hp).1

/-- When no selector field is named `website`, the built item stores
the site name there. -/
theorem buildItem_lookup_website (selectors : List (String × String))
    (website ts : String) (i : Nat) (container : Element)
    (h : ∀ p ∈ selectors, p.1 ≠ "website") :
    lookupKey (buildItem selectors website ts i container) "website"
      = some (PyVal.vStr website) := by
  unfold buildItem
  rw [lookupKey_foldl_dictSet_of_notmem]
  · simp [lookupKey]
  · intro p hp
    exact h p (List.mem_filter.mp hp).1

/-- When no selector field is named `scraped_at`, the built item
stores the capture timestamp there. -/
theorem buildItem_lookup_scraped_at (selectors : List (String × String))
    (website ts : String) (i : Nat) (container : Element)
    (h : ∀ p ∈ selectors, p.1 ≠ "scraped_at") :
    lookupKey (buildItem selectors website ts i container) "scraped_at"
      = some (PyVal.vStr ts) := by
  unfold buildItem
  rw [lookupKey_foldl_dictSet_of_notmem]
  · simp [lookupKey, show ("website" : String) ≠ "scraped_at" by decide,
      show ("item_id" : String) ≠ "scraped_at" by decide]
  · intro p hp
    exact h p (List.mem_filter.mp hp).1

/-- The three provenance keys are always present in a container-path
item, whatever the selector map does. -/
theorem buildItem_provenance_keys (selectors : List (String × String))
    (website ts : String) (i : Nat) (container : Element) :
    lookupKey (buildItem selectors website ts i container) "website" ≠ none ∧
    lookupKey (buildItem selectors website ts i container) "item_id" ≠ none ∧
    lookupKey (buildItem selectors website ts i container) "scraped_at" ≠ none := by
  unfold buildItem
  refine ⟨?_, ?_, ?_⟩
  · exact lookupKey_foldl_dictSet_isSome _ _ _ _ (by simp [lookupKey])
  · exact lookupKey_foldl_dictSet_isSome _ _ _ _
      (by simp [lookupKey, show ("website" : String) ≠ "item_id" by decide])
  · exact lookupKey_foldl_dictSet_isSome _ _ _ _
      (by simp [lookupKey, show ("website" : String) ≠ "scraped_at" by decide,
        show ("item_id" : String) ≠ "scraped_at" by decide])

/-! ### Lemmas about `generate_report` -/

/-- Unfolding the report loop from an arbitrary accumulator. -/
theorem foldl_reportStep (scraped : List (String × List Record))
    (ts u : String) (n : Nat) (ws : List SiteReportEntry) (t : Nat) :
    scraped.foldl reportStep ⟨ts, u, n, ws, t⟩
      = ⟨ts, u, n,
         ws ++ scraped.map (fun nd => ⟨nd.1, nd.2.length,
            if nd.2.length > 0 then "success" else "no_data"⟩),
         t + (scraped.map (fun nd => nd.2.length)).sum⟩ := by
  induction scraped generalizing ws t with
  | nil => simp
  | cons nd rest ih =>
      simp only [List.foldl_cons, reportStep, List.map_cons, List.sum_cons]
      rw [ih]
      simp [Nat.add_assoc]

/-- Closed form of `generate_report`. -/
theorem generate_report_eq (ts : String)
    (scraped : List (String × List Record)) :
    generate_report ts scraped
      = ⟨ts, "CrypticLuminary", scraped.length,
         scraped.map (fun nd => ⟨nd.1, nd.2.length,
            if nd.2.length > 0 then "success" else "no_data"⟩),
         (scraped.map (fun nd => nd.2.length)).sum⟩ := by
  unfold generate_report
  rw [foldl_reportStep]
  simp

/-! ### Lemmas about the retry loop -/

/-- The loop performs at most `fuel` request attempts. -/
theorem fetchGo_attempts_le (fails : Nat → Bool) (retries : Nat) :
    ∀ fuel attempt, (fetchGo fails retries attempt fuel).attempts ≤ fuel := by
  intro fuel
  induction fuel with
  | zero => intro attempt; simp [fetchGo]
  | succ m ih =>
      intro attempt
      simp only [fetchGo]
      by_cases hf : fails attempt
      · by_cases hl : attempt < retries
        · simpa [hf, hl] using Nat.succ_le_succ (ih (attempt + 1))
        · simp [hf, hl]
      · simp [hf]

/-- When every attempt fails, the loop from `attempt` with matching
fuel performs exactly `fuel` attempts, sleeps
`(attempt+1)*2, ..., (attempt+fuel-1)*2` seconds, and returns a
terminal failure. -/
theorem fetchGo_all_fail (fails : Nat → Bool) (retries : Nat)
    (hall : ∀ i, fails i = true) :
    ∀ fuel attempt, attempt + fuel = retries + 1 →
      fetchGo fails retries attempt fuel
        = ⟨fuel, (List.range' (attempt + 1) (fuel - 1)).map (fun k => k * 2),
           false⟩ := by
  intro fuel
  induction fuel with
  | zero => intro attempt _; simp [fetchGo]
  | succ m ih =>
      intro attempt hfuel
      simp only [fetchGo, hall attempt, if_true]
      cases m with
      | zero =>
          have hnl : ¬ attempt < retries := by omega
          simp [hnl]
      | succ m1 =>
          have hl : attempt < retries := by omega
          have hrest := ih (attempt + 1) (by omega)
          simp only [hl, if_true, hrest]
          have hrange : List.range' (attempt + 1) (m1 + 1)
              = (attempt + 1) :: List.range' (attempt + 2) m1 := by
            rw [List.range'_succ]
          simp [hrange]

/-- When every attempt fails, `get_page_content` with `retries`
performs exactly `retries + 1` attempts with waits `2, 4, ...,
retries * 2` and no page. -/
theorem get_page_content_all_fail (fails : Nat → Bool) (retries : Nat)
    (hall : ∀ i, fails i = true) :
    get_page_content fails retries
      = ⟨retries + 1, (List.range' 1 retries).map (fun k => k * 2), false⟩ := by
  unfold get_page_content
  rw [fetchGo_all_fail fails retries hall (retries + 1) 0 (by omega)]
  simp

/-! ### Claim theorems -/

/-- C3: for every URL and retry count the fetcher issues at most
`retries + 1` request attempts; when every attempt fails it performs
exactly `retries + 1` attempts and returns a terminal failure instead
of raising, sleeping `k * 2` seconds before retry attempt `k + 1`
(waits `2, 4, ..., retries * 2`) and not sleeping after the final
attempt. -/
theorem c3_fetch_retry_backoff (fails : Nat → Bool) (retries : Nat) :
    (get_page_content fails retries).attempts ≤ retries + 1 ∧
    ((∀ i, fails i = true) →
      get_page_content fails retries
        = ⟨retries + 1, (List.range' 1 retries).map (fun k => k * 2),
           false⟩) := by
  constructor
  · exact fetchGo_attempts_le fails retries (retries + 1) 0
  · intro hall
    exact get_page_content_all_fail fails retries hall

/-- With `retries = 2` and a permanently failing endpoint: exactly 3
attempts, waits of 2s then 4s, terminal failure. -/
theorem c3_fetch_retry_backoff_witness :
    (get_page_content (fun _ => true) 2).attempts ≤ 3 ∧
    get_page_content (fun _ => true) 2 = ⟨3, [2, 4], false⟩ := by
  have h := c3_fetch_retry_backoff (fun _ => true) 2
  exact ⟨h.1, (h.2 (fun _ => rfl)).trans (by decide)⟩

/-- C5: in every generated report, total_items equals the sum of the
per-site items_scraped entries, the items_scraped entries are exactly
the record-list lengths of the scraped-data mapping, and
total_websites equals the number of sites. -/
theorem c5_report_totals (ts : String)
    (scraped : List (String × List Record)) :
    (generate_report ts scraped).total_items
      = ((generate_report ts scraped).websites.map
          (fun e => e.items_scraped)).sum ∧
    (generate_report ts scraped).websites.map (fun e => e.items_scraped)
      = scraped.map (fun nd => nd.2.length) ∧
    (generate_report ts scraped).total_websites = scraped.length := by
  rw [generate_report_eq]
  refine ⟨?_, ?_, rfl⟩ <;> simp [List.map_map, Function.comp_def]

/-- C8: a site whose effective `enabled` flag is false returns an
empty outcome with zero fetch attempts. -/
theorem c8_disabled_site_skipped (env : Env) (websiteName ts : String)
    (cfg : WebsiteConfig) (h : cfg.enabled = false) :
    scrape_website env websiteName ts cfg = ⟨[], []⟩ := by
  simp [scrape_website, h]

/-- A concrete disabled site: no records and no fetches. -/
theorem c8_disabled_site_skipped_witness :
    scrape_website ⟨fun _ => none, fun b p => b ++ p⟩ "s" "t"
      ⟨false, "http://x", ["/a"], [("title", "t")]⟩ = ⟨[], []⟩ :=
  c8_disabled_site_skipped _ "s" "t" _ rfl

/-- C6: in the container path, a field whose selector matches zero
elements — or whose extraction raises — is stored as an explicit
`None` under its own key (never an empty string, never an omitted
key), and every other non-container field of the same item is still
extracted normally. -/
theorem c6_absent_field_explicit_none (selectors : List (String × String))
    (websiteName ts : String) (i : Nat) (container : Element) (f sel : String)
    (hmem : (f, sel) ∈ selectors)
    (hnc : strEndsWith f "_container" = false)
    (hnodup : (selectors.map Prod.fst).Nodup)
    (hzero : container.select sel = some [] ∨ container.select sel = none) :
    lookupKey (buildItem selectors websiteName ts i container) f
      = some PyVal.vNone ∧
    (some PyVal.vNone : Option PyVal) ≠ some (PyVal.vStr "") ∧
    (∀ g gsel, (g, gsel) ∈ selectors → strEndsWith g "_container" = false →
      lookupKey (buildItem selectors websiteName ts i container) g
        = some (extractField container g gsel)) := by
  refine ⟨?_, by simp, ?_⟩
  · rw [buildItem_lookup_field selectors websiteName ts i container f sel
      hmem hnc hnodup]
    rcases hzero with h | h <;> simp [extractField, h]
  · intro g gsel hg hgnc
    exact buildItem_lookup_field selectors websiteName ts i container g gsel
      hg hgnc hnodup

/-- A zero-match field and a raising field both stored as explicit
`None`, with the neighbouring field still extracted. -/
theorem c6_absent_field_explicit_none_witness :
    lookupKey (buildItem [("title", "a"), ("author", "b")] "w" "ts" 0
        ⟨fun s => if s = "a" then some [] else some ["x"]⟩) "title"
      = some PyVal.vNone ∧
    lookupKey (buildItem [("title", "a"), ("author", "b")] "w" "ts" 0
        ⟨fun s => if s = "a" then none else some ["x"]⟩) "title"
      = some PyVal.vNone ∧
    lookupKey (buildItem [("title", "a"), ("author", "b")] "w" "ts" 0
        ⟨fun s => if s = "a" then none else some ["x"]⟩) "author"
      = some (PyVal.vStr "x") := by
  have h1 := c6_absent_field_explicit_none [("title", "a"), ("author", "b")]
    "w" "ts" 0 ⟨fun s => if s = "a" then some [] else some ["x"]⟩ "title" "a"
    (by decide) (by decide) (by decide) (Or.inl (by decide))
  have h2 := c6_absent_field_explicit_none [("title", "a"), ("author", "b")]
    "w" "ts" 0 ⟨fun s => if s = "a" then none else some ["x"]⟩ "title" "a"
    (by decide) (by decide) (by decide) (Or.inr (by decide))
  refine ⟨h1.1, h2.1, ?_⟩
  have h3 := h2.2.2 "author" "b" (by decide) (by decide)
  exact h3.trans (by decide)

/-- C7: a field named exactly `tags` whose selector matches `n ≥ 1`
elements stores the ordered list of all n matched texts, while any
other field name with at least one match stores the text of only the
first matched element. -/
theorem c7_tags_all_vs_first (selectors : List (String × String))
    (websiteName ts : String) (i : Nat) (container : Element)
    (f sel t : String) (rest : List String)
    (hmem : (f, sel) ∈ selectors)
    (hnc : strEndsWith f "_container" = false)
    (hnodup : (selectors.map Prod.fst).Nodup)
    (hmatch : container.select sel = some (t :: rest)) :
    (f = "tags" →
      lookupKey (buildItem selectors websiteName ts i container) f
        = some (PyVal.vList (t :: rest))) ∧
    (f ≠ "tags" →
      lookupKey (buildItem selectors websiteName ts i container) f
        = some (PyVal.vStr t)) := by
  have hval := buildItem_lookup_field selectors websiteName ts i container
    f sel hmem hnc hnodup
  constructor
  · intro hf
    rw [hval]
    simp [extractField, hmatch, hf]
  · intro hf
    rw [hval]
    simp [extractField, hmatch, hf]

/-- A 3-match `tags` field yields all three texts in order; a 2-match
`title` field yields only the first text. -/
theorem c7_tags_all_vs_first_witness :
    lookupKey (buildItem [("tags", "s")] "w" "ts" 0
        ⟨fun _ => some ["a", "b", "c"]⟩) "tags"
      = some (PyVal.vList ["a", "b", "c"]) ∧
    lookupKey (buildItem [("title", "s")] "w" "ts" 0
        ⟨fun _ => some ["a", "b"]⟩) "title"
      = some (PyVal.vStr "a") := by
  have h1 := c7_tags_all_vs_first [("tags", "s")] "w" "ts" 0
    ⟨fun _ => some ["a", "b", "c"]⟩ "tags" "s" "a" ["b", "c"]
    (by decide) (by decide) (by decide) (by decide)
  have h2 := c7_tags_all_vs_first [("title", "s")] "w" "ts" 0
    ⟨fun _ => some ["a", "b"]⟩ "title" "s" "a" ["b"]
    (by decide) (by decide) (by decide) (by decide)
  exact ⟨h1.1 rfl, h2.2 (by decide)⟩

/-- If the Python `or`-chain of two values is a truthy string, one of
the operands is that string. -/
theorem pyOrS_eq_some (a b : Option String) (s : String)
    (h : pyOrS a b = some s) : a = some s ∨ b = some s := by
  unfold pyOrS at h
  cases a with
  | none => exact Or.inr h
  | some s1 =>
      by_cases he : s1.isEmpty
      · simp [he] at h
        exact Or.inr (by rw [h])
      · simp [he] at h
        exact Or.inl (by rw [h])

/-- A truthy container selector comes from the chained `get` with a
non-empty value. -/
theorem effectiveContainer_some (selectors : List (String × String))
    (csel : String) (h : effectiveContainer selectors = some csel) :
    container_selector selectors = some csel ∧ csel.isEmpty = false := by
  unfold effectiveContainer at h
  cases hc : container_selector selectors with
  | none => rw [hc] at h; cases h
  | some s =>
      rw [hc] at h
      by_cases he : s.isEmpty
      · simp [he] at h
      · simp [he] at h
        subst h
        exact ⟨rfl, Bool.not_eq_true s.isEmpty ▸ he⟩

/-- C10: the per-container path is taken only when one of the exact
keys quote_container, book_container or data_container is present
(with a truthy value); a selector map in which all three `get` calls
return `None` — even one holding a differently named `*_container`
key — degrades to the single whole-page record of at most 1000
characters; and inside the per-container path every field whose name
ends with `_container` is excluded from per-field extraction (such a
key never appears in an item). -/
theorem c10_container_key_dispatch (soup : Soup)
    (selectors : List (String × String)) (websiteName ts : String) :
    (∀ csel, effectiveContainer selectors = some csel →
      lookupS selectors "quote_container" = some csel ∨
      lookupS selectors "book_container" = some csel ∨
      lookupS selectors "data_container" = some csel) ∧
    (lookupS selectors "quote_container" = none →
     lookupS selectors "book_container" = none →
     lookupS selectors "data_container" = none →
      extract_data_from_soup soup selectors websiteName ts
        = [fallbackItem soup websiteName ts] ∧
      (String.mk (soup.pageText.data.take 1000)).length ≤ 1000) ∧
    (∀ csel, effectiveContainer selectors = some csel →
      ∀ rec ∈ extract_data_from_soup soup selectors websiteName ts,
        ∀ f, strEndsWith f "_container" = true → lookupKey rec f = none) := by
  refine ⟨?_, ?_, ?_⟩
  · intro csel h
    have hc := (effectiveContainer_some selectors csel h).1
    unfold container_selector at hc
    rcases pyOrS_eq_some _ _ _ hc with h1 | h1
    · exact Or.inl h1
    · rcases pyOrS_eq_some _ _ _ h1 with h2 | h2
      · exact Or.inr (Or.inl h2)
      · exact Or.inr (Or.inr h2)
  · intro hq hb hd
    have hcs : container_selector selectors = none := by
      unfold container_selector
      rw [hq, hb, hd]
      rfl
    have heff : effectiveContainer selectors = none := by
      unfold effectiveContainer
      rw [hcs]
    constructor
    · unfold extract_data_from_soup
      rw [heff]
    · have hlen : (String.mk (soup.pageText.data.take 1000)).length
          = (soup.pageText.data.take 1000).length := rfl
      rw [hlen, List.length_take]
      exact Nat.min_le_left _ _
  · intro csel h rec hrec f hf
    unfold extract_data_from_soup at hrec
    rw [h] at hrec
    rcases List.mem_map.mp hrec with ⟨ic, _, hrec2⟩
    rw [← hrec2]
    exact buildItem_lookup_container_name selectors websiteName ts ic.1 ic.2
      f hf

/-- A map whose only container-like key is `foo_container` degrades to
the whole-page record, and that key never appears in container-path
items of a map that does use `data_container`. -/
theorem c10_container_key_dispatch_witness :
    extract_data_from_soup ⟨fun _ => [], "hello"⟩
        [("foo_container", "x"), ("title", "t")] "w" "ts"
      = [fallbackItem ⟨fun _ => [], "hello"⟩ "w" "ts"] ∧
    (String.mk (("hello" : String).data.take 1000)).length ≤ 1000 ∧
    lookupKey (buildItem [("data_container", "c"), ("foo_container", "x")]
        "w" "ts" 0 ⟨fun _ => some ["v"]⟩) "foo_container" = none := by
  have h := (c10_container_key_dispatch ⟨fun _ => [], "hello"⟩
    [("foo_container", "x"), ("title", "t")] "w" "ts").2.1
    (by decide) (by decide) (by decide)
  have h2 := (c10_container_key_dispatch ⟨fun _ => [⟨fun _ => some ["v"]⟩], "pg"⟩
    [("data_container", "c"), ("foo_container", "x")] "w" "ts").2.2
    "c" (by decide)
  refine ⟨h.1, h.2, ?_⟩
  have hmem : buildItem [("data_container", "c"), ("foo_container", "x")]
      "w" "ts" 0 ⟨fun _ => some ["v"]⟩
      ∈ extract_data_from_soup ⟨fun _ => [⟨fun _ => some ["v"]⟩], "pg"⟩
        [("data_container", "c"), ("foo_container", "x")] "w" "ts" := by
    decide
  exact h2 _ hmem "foo_container" (by decide)

/-- C9 counterexample: with no container selector, the single degraded
record stores no item index at all — the produced record list maps to
`[none]` under the `item_id` key, refuting that every record carries a
sequential item index. -/
theorem c9_counterexample :
    (extract_data_from_soup ⟨fun _ => [], "page text"⟩ [("title", "t")]
        "site" "ts").map (fun rec => lookupKey rec "item_id")
      = [none] := by
  decide

/-- C9 (amended): every container-path record carries the source site
name, the 1-based item index of its container within the page, and the
capture timestamp (provided the selector map does not reuse those
reserved field names); the degraded whole-page record carries the site
name, the truncated content and the timestamp, but no item index. -/
theorem c9_record_provenance (soup : Soup)
    (selectors : List (String × String)) (website ts : String)
    (hshadow : ∀ p ∈ selectors,
      p.1 ≠ "website" ∧ p.1 ≠ "item_id" ∧ p.1 ≠ "scraped_at") :
    (∀ csel, effectiveContainer selectors = some csel →
      ∀ i rec,
        (extract_data_from_soup soup selectors website ts)[i]? = some rec →
          lookupKey rec "website" = some (PyVal.vStr website) ∧
          lookupKey rec "item_id" = some (PyVal.vNat (i + 1)) ∧
          lookupKey rec "scraped_at" = some (PyVal.vStr ts)) ∧
    (effectiveContainer selectors = none →
      extract_data_from_soup soup selectors website ts
        = [fallbackItem soup website ts] ∧
      lookupKey (fallbackItem soup website ts) "website"
        = some (PyVal.vStr website) ∧
      lookupKey (fallbackItem soup website ts) "scraped_at"
        = some (PyVal.vStr ts) ∧
      lookupKey (fallbackItem soup website ts) "item_id" = none) := by
  constructor
  · intro csel hc i rec hrec
    unfold extract_data_from_soup at hrec
    rw [hc] at hrec
    rw [List.getElem?_map] at hrec
    rw [List.getElem?_enum] at hrec
    cases hcont : (soup.selectContainers csel)[i]? with
    | none => rw [hcont] at hrec; cases hrec
    | some cont =>
        rw [hcont] at hrec
        simp only [Option.map_some'] at hrec
        obtain rfl : buildItem selectors website ts i cont = rec :=
          Option.some.inj hrec
        exact ⟨buildItem_lookup_website selectors website ts i cont
            (fun p hp => (hshadow p hp).1),
          buildItem_lookup_item_id selectors website ts i cont
            (fun p hp => (hshadow p hp).2.1),
          buildItem_lookup_scraped_at selectors website ts i cont
            (fun p hp => (hshadow p hp).2.2)⟩
  · intro hc
    refine ⟨?_, ?_, ?_, ?_⟩
    · unfold extract_data_from_soup
      rw [hc]
    · rfl
    · simp [fallbackItem, lookupKey]
    · simp [fallbackItem, lookupKey]

/-- Provenance of a concrete container-path record, and absence of an
item index on a concrete degraded record. -/
theorem c9_record_provenance_witness :
    lookupKey (buildItem [("data_container", "c"), ("title", "t")] "w" "ts"
        0 ⟨fun _ => some ["x"]⟩) "website" = some (PyVal.vStr "w") ∧
    lookupKey (buildItem [("data_container", "c"), ("title", "t")] "w" "ts"
        0 ⟨fun _ => some ["x"]⟩) "item_id" = some (PyVal.vNat 1) ∧
    lookupKey (fallbackItem ⟨fun _ => [], "pg"⟩ "w" "ts") "item_id"
      = none := by
  have h := c9_record_provenance ⟨fun _ => [⟨fun _ => some ["x"]⟩], "pg"⟩
    [("data_container", "c"), ("title", "t")] "w" "ts" (by decide)
  have h1 := h.1 "c" (by decide) 0
    (buildItem [("data_container", "c"), ("title", "t")] "w" "ts"
      0 ⟨fun _ => some ["x"]⟩) (by decide)
  have h2 := c9_record_provenance ⟨fun _ => [], "pg"⟩
    [("title", "t")] "w" "ts" (by decide)
  exact ⟨h1.1, h1.2.1, (h2.2 (by decide)).2.2.2⟩

/-- C2 counterexample: a site with two pages whose container selector
matches 2 items on the first page and 1 on the second produces item
ids 1, 2, 1 — the counter resets at the page boundary instead of
running 1, 2, 3 across the site. -/
theorem c2_counterexample :
    ((scrape_website
        ⟨fun u => if u = "b/p1"
            then some ⟨fun _ => [⟨fun _ => some ["x"]⟩, ⟨fun _ => some ["y"]⟩],
              "pg"⟩
            else some ⟨fun _ => [⟨fun _ => some ["z"]⟩], "pg"⟩,
          fun b p => b ++ p⟩
        "books" "ts"
        ⟨true, "b", ["/p1", "/p2"],
         [("data_container", "c"), ("title", "t")]⟩).records.map
      (fun rec => lookupKey rec "item_id"))
      = [some (PyVal.vNat 1), some (PyVal.vNat 2), some (PyVal.vNat 1)] ∧
    ¬ ((scrape_website
        ⟨fun u => if u = "b/p1"
            then some ⟨fun _ => [⟨fun _ => some ["x"]⟩, ⟨fun _ => some ["y"]⟩],
              "pg"⟩
            else some ⟨fun _ => [⟨fun _ => some ["z"]⟩], "pg"⟩,
          fun b p => b ++ p⟩
        "books" "ts"
        ⟨true, "b", ["/p1", "/p2"],
         [("data_container", "c"), ("title", "t")]⟩).records.map
      (fun rec => lookupKey rec "item_id"))
      = [some (PyVal.vNat 1), some (PyVal.vNat 2), some (PyVal.vNat 3)] := by
  constructor
  · decide
  · decide

/-- C2 (amended): the item counter is per page, not per site — within
one page's container-path extraction the stored item ids are exactly
1..k in order (k the number of matched containers on that page), and
the counter restarts at 1 on every page. -/
theorem c2_item_ids_per_page (soup : Soup)
    (selectors : List (String × String)) (website ts : String)
    (csel : String) (hc : effectiveContainer selectors = some csel)
    (hshadow : ∀ p ∈ selectors, p.1 ≠ "item_id") :
    (extract_data_from_soup soup selectors website ts).map
        (fun rec => lookupKey rec "item_id")
      = (List.range (soup.selectContainers csel).length).map
          (fun i => some (PyVal.vNat (i + 1))) := by
  unfold extract_data_from_soup
  rw [hc]
  rw [List.map_map]
  simp only [Function.comp_def]
  rw [List.map_congr_left (g := fun ic : Nat × Element =>
      (some (PyVal.vNat (ic.1 + 1)) : Option PyVal))
    (fun ic _ => buildItem_lookup_item_id selectors website ts ic.1 ic.2
      hshadow)]
  rw [show (fun ic : Nat × Element => (some (PyVal.vNat (ic.1 + 1)) : Option PyVal))
      = (fun i : Nat => (some (PyVal.vNat (i + 1)) : Option PyVal)) ∘ Prod.fst
    from rfl]
  rw [← List.map_map, List.enum_map_fst]

/-- Per-page item ids on a concrete two-container page: exactly 1, 2. -/
theorem c2_item_ids_per_page_witness :
    (extract_data_from_soup
        ⟨fun _ => [⟨fun _ => some ["x"]⟩, ⟨fun _ => some ["y"]⟩], "pg"⟩
        [("data_container", "c"), ("title", "t")] "w" "ts").map
        (fun rec => lookupKey rec "item_id")
      = [some (PyVal.vNat 1), some (PyVal.vNat 2)] := by
  have h := c2_item_ids_per_page
    ⟨fun _ => [⟨fun _ => some ["x"]⟩, ⟨fun _ => some ["y"]⟩], "pg"⟩
    [("data_container", "c"), ("title", "t")] "w" "ts" "c"
    (by decide) (by decide)
  exact h.trans (by decide)

/-- C1 counterexample: in the two-site scenario (one task raises after
producing 2 records, one returns 5 records) the report marks the
faulted site no_data with 0 items — its records are not preserved and
no error status appears — and total_items is 5, not 7. -/
theorem c1_counterexample :
    (generate_report "ts" (scrape_all_websites
        [("siteA", Except.error "boom"),
         ("siteB", Except.ok [[("t", PyVal.vStr "r1")],
            [("t", PyVal.vStr "r2")], [("t", PyVal.vStr "r3")],
            [("t", PyVal.vStr "r4")], [("t", PyVal.vStr "r5")]])])).websites
      = [⟨"siteA", 0, "no_data"⟩, ⟨"siteB", 5, "success"⟩] ∧
    (generate_report "ts" (scrape_all_websites
        [("siteA", Except.error "boom"),
         ("siteB", Except.ok [[("t", PyVal.vStr "r1")],
            [("t", PyVal.vStr "r2")], [("t", PyVal.vStr "r3")],
            [("t", PyVal.vStr "r4")],
            [("t", PyVal.vStr "r5")]])])).total_items = 5 ∧
    ¬ ((generate_report "ts" (scrape_all_websites
        [("siteA", Except.error "boom"),
         ("siteB", Except.ok [[("t", PyVal.vStr "r1")],
            [("t", PyVal.vStr "r2")], [("t", PyVal.vStr "r3")],
            [("t", PyVal.vStr "r4")],
            [("t", PyVal.vStr "r5")]])])).total_items = 7) := by
  exact ⟨by decide, by decide, by decide⟩

/-- C1 (amended): when one site task raises mid-run and the other
returns 5 records, the scheduler records the faulted site with an
empty record list (whatever it accumulated before the fault is
discarded), the report folds the fault into a `no_data` status with 0
items, the completing site gets `success` with 5 items, and
total_items is 5. -/
theorem c1_error_site_folds_to_no_data (e ts : String)
    (recsB : List Record) (hlen : recsB.length = 5) :
    scrape_all_websites
        [("siteA", Except.error e), ("siteB", Except.ok recsB)]
      = [("siteA", []), ("siteB", recsB)] ∧
    (generate_report ts (scrape_all_websites
        [("siteA", Except.error e), ("siteB", Except.ok recsB)])).websites
      = [⟨"siteA", 0, "no_data"⟩, ⟨"siteB", 5, "success"⟩] ∧
    (generate_report ts (scrape_all_websites
        [("siteA", Except.error e), ("siteB", Except.ok recsB)])).total_items
      = 5 := by
  have h1 : scrape_all_websites
      [("siteA", Except.error e), ("siteB", Except.ok recsB)]
      = [("siteA", []), ("siteB", recsB)] := rfl
  refine ⟨h1, ?_, ?_⟩ <;>
  · rw [h1, generate_report_eq]
    simp [hlen]

/-- The amended C1 scenario on concrete records. -/
theorem c1_error_site_folds_to_no_data_witness :
    (generate_report "ts" (scrape_all_websites
        [("siteA", Except.error "boom"),
         ("siteB", Except.ok [[("t", PyVal.vNone)], [("t", PyVal.vNone)],
            [("t", PyVal.vNone)], [("t", PyVal.vNone)],
            [("t", PyVal.vNone)]])])).total_items = 5 ∧
    (generate_report "ts" (scrape_all_websites
        [("siteA", Except.error "boom"),
         ("siteB", Except.ok [[("t", PyVal.vNone)], [("t", PyVal.vNone)],
            [("t", PyVal.vNone)], [("t", PyVal.vNone)],
            [("t", PyVal.vNone)]])])).websites
      = [⟨"siteA", 0, "no_data"⟩, ⟨"siteB", 5, "success"⟩] := by
  have h := c1_error_site_folds_to_no_data "boom" "ts"
    [[("t", PyVal.vNone)], [("t", PyVal.vNone)], [("t", PyVal.vNone)],
     [("t", PyVal.vNone)], [("t", PyVal.vNone)]] (by decide)
  exact ⟨h.2.2, h.2.1⟩

/-- C4: turning any one site task's result into a raised exception
changes no other site's entry in the scheduler's result mapping,
records the faulted site under its own name with an empty outcome, and
the generated report still covers every site — the crawl completes and
reports no matter which tasks fail. -/
theorem c4_scheduler_fault_isolation
    (tasks : List (String × Except String (List Record)))
    (i : Nat) (hi : i < tasks.length) (e ts : String) :
    (∀ j, j ≠ i →
      (scrape_all_websites
          (tasks.set i ((tasks.get ⟨i, hi⟩).1, Except.error e)))[j]?
        = (scrape_all_websites tasks)[j]?) ∧
    (scrape_all_websites
        (tasks.set i ((tasks.get ⟨i, hi⟩).1, Except.error e)))[i]?
      = some ((tasks.get ⟨i, hi⟩).1, []) ∧
    (generate_report ts (scrape_all_websites
        (tasks.set i ((tasks.get ⟨i, hi⟩).1, Except.error e)))).total_websites
      = tasks.length := by
  refine ⟨?_, ?_, ?_⟩
  · intro j hj
    unfold scrape_all_websites
    rw [List.getElem?_map, List.getElem?_map,
      List.getElem?_set_ne (Ne.symm hj)]
  · unfold scrape_all_websites
    rw [List.getElem?_map, List.getElem?_set_self hi]
    rfl
  · rw [generate_report_eq]
    unfold scrape_all_websites
    simp

/-- Fault isolation on a concrete two-site task list. -/
theorem c4_scheduler_fault_isolation_witness :
    (scrape_all_websites
        ([("a", Except.ok ([] : List Record)),
          ("b", Except.ok ([] : List Record))].set 0
          ("a", Except.error "boom")))[1]?
      = (scrape_all_websites
          [("a", Except.ok ([] : List Record)),
           ("b", Except.ok ([] : List Record))])[1]? ∧
    (scrape_all_websites
        ([("a", Except.ok ([] : List Record)),
          ("b", Except.ok ([] : List Record))].set 0
          ("a", Except.error "boom")))[0]?
      = some ("a", ([] : List Record)) ∧
    (generate_report "ts" (scrape_all_websites
        ([("a", Except.ok ([] : List Record)),
          ("b", Except.ok ([] : List Record))].set 0
          ("a", Except.error "boom")))).total_websites = 2 := by
  have h := c4_scheduler_fault_isolation
    [("a", Except.ok ([] : List Record)), ("b", Except.ok ([] : List Record))]
    0 (by decide) "boom" "ts"
  exact ⟨h.1 1 (by decide), h.2.1, h.2.2⟩
